import Mathlib

/-!
Verification of the audio diagnostics and signal-chain configuration subsystem

Shallow embedding, in Lean 4, of the algorithmic core of the
`auvid-professional-editing` repository: the strength mappers
(`src/frontend/src/lib/dsp/dspTypes.ts` and its duplicate), the DSP pipeline
orchestration (`src/frontend/src/lib/audioProcessor.ts`), the auto-tuner
(`src/frontend/src/lib/autoDspAutoTune.ts`,
`src/frontend/src/lib/autoAudioAssessment.ts`), the WAV encoder
(`src/frontend/src/lib/wavEncoder.ts`), the audio metrics
(`src/frontend/src/lib/audioMetrics.ts`) and the Triple-Check diagnostics
runner.

JavaScript numbers are modelled as exact rationals extended with the
non-finite values `NaN`, `Infinity` and `-Infinity` (`JSNum` below), so that
the source's `isNaN` / `isFinite` guards and the behaviour of unguarded
divisions (`0/0 = NaN`, comparisons with `NaN` are false) are represented
exactly.  Transcendental library calls (`Math.sqrt`, `Math.log10`,
`Math.cos`, `Math.sin`) are taken as function parameters of the embedding:
every theorem below either holds for all instantiations of those parameters
or constrains them only at the arguments actually reached (for example
`sqrt 0 = 0`).
-/

/-- A JavaScript number: a finite rational, `NaN`, `Infinity` or
`-Infinity`.  Floating-point rounding is not modelled; all finite values are
exact rationals. -/
inductive JSNum where
  | num (q : ℚ)
  | nan
  | inf
  | ninf
deriving DecidableEq, Repr

namespace JSNum

/-- The `isNaN(x)` of JavaScript. -/
def isNaN : JSNum → Bool
  | .nan => true
  | _ => false

/-- The `isFinite(x)` of JavaScript. -/
def isFinite : JSNum → Bool
  | .num _ => true
  | _ => false

/-- The `Math.abs` on a JavaScript number (`Math.abs(NaN) = NaN`,
`Math.abs(±Infinity) = Infinity`). -/
def abs : JSNum → JSNum
  | .num q => .num |q|
  | .nan => .nan
  | .inf => .inf
  | .ninf => .inf

/-- JavaScript division of two finite values: `0/0 = NaN`, `q/0 = ±Infinity`
for `q ≠ 0`, ordinary rational division otherwise. -/
def div (a b : ℚ) : JSNum :=
  if b = 0 then
    if a = 0 then .nan else if a > 0 then .inf else .ninf
  else
    .num (a / b)

/-- Multiplication of a JavaScript number by a finite constant
(`NaN * c = NaN`); only used with positive constants, where the infinity
signs are preserved. -/
def mulConst (x : JSNum) (c : ℚ) : JSNum :=
  match x with
  | .num q => .num (q * c)
  | .nan => .nan
  | .inf => .inf
  | .ninf => .ninf

/-- JavaScript `x > c` for a finite right-hand side: false when `x` is
`NaN`. -/
def gtQ (x : JSNum) (c : ℚ) : Bool :=
  match x with
  | .num q => q > c
  | .nan => false
  | .inf => true
  | .ninf => false

/-- The `Math.sqrt` lifted to JavaScript numbers, parameterized by the value
`sqrtFn` it takes on non-negative finite arguments (`Math.sqrt(NaN) = NaN`,
`Math.sqrt` of a negative number is `NaN`). -/
def sqrt (sqrtFn : ℚ → ℚ) : JSNum → JSNum
  | .num q => if q < 0 then .nan else .num (sqrtFn q)
  | .nan => .nan
  | .inf => .inf
  | .ninf => .nan

end JSNum

/-- The `Math.round` on a finite value: rounds half toward positive infinity. -/
def jsRound (q : ℚ) : ℤ := Rat.floor (q + 1 / 2)

/-!
Strength Mapper (`src/frontend/src/lib/dsp/dspTypes.ts`)

The pure linear-interpolation functions mapping the 0-100 strength knob to
engineering units.  The repository contains a second module with the same
exported names (kept in `LegacyDspTypes` below) whose threshold mapping is
*not* inverted.
-/

namespace DspTypes

/-- The `normalizeStrength(strength, min, max)`. -/
def normalizeStrength (strength min max : ℚ) : ℚ :=
  min + (strength / 100) * (max - min)

/-- The `strengthToThreshold(strength, minThreshold, maxThreshold)` of
`dsp/dspTypes.ts` — inverted: 0% strength ⇒ `maxThreshold`, 100% strength ⇒
`minThreshold`. -/
def strengthToThreshold (strength minThreshold maxThreshold : ℚ) : ℚ :=
  maxThreshold - (strength / 100) * (maxThreshold - minThreshold)

/-- The `strengthToRatio(strength, minRatio, maxRatio)`. -/
def strengthToRatio (strength minRatio maxRatio : ℚ) : ℚ :=
  minRatio + (strength / 100) * (maxRatio - minRatio)

/-- The `strengthToQ(strength, minQ, maxQ)`. -/
def strengthToQ (strength minQ maxQ : ℚ) : ℚ :=
  minQ + (strength / 100) * (maxQ - minQ)

/-- The `strengthToGain(strength, minGain, maxGain)`. -/
def strengthToGain (strength minGain maxGain : ℚ) : ℚ :=
  minGain + (strength / 100) * (maxGain - minGain)

/-- The `strengthToFrequency(strength, minFreq, maxFreq)`. -/
def strengthToFrequency (strength minFreq maxFreq : ℚ) : ℚ :=
  minFreq + (strength / 100) * (maxFreq - minFreq)

end DspTypes

namespace LegacyDspTypes

/-- The `strengthToThreshold(strength, minThreshold, maxThreshold)` of the
duplicate DSP-types module (the unnamed source file that also declares
`StageConfig` and the `diagnosticsMode` flag): `minThreshold +
(maxThreshold - minThreshold) * (strength / 100)` — not inverted. -/
def strengthToThreshold (strength minThreshold maxThreshold : ℚ) : ℚ :=
  minThreshold + (maxThreshold - minThreshold) * (strength / 100)

end LegacyDspTypes

/-!
DSP processing options

`StageConfig` / `DSPStageOptions` and `DSPProcessingOptions` (all stage
fields optional in the source; `processAudioWithDSP` destructures them with
the defaults reproduced below).  The `onProgress` callback is part of the
environment and is modelled by the progress trace of the pipeline instead.
-/

/-- The `DSPStageOptions` / `StageConfig`: `{enabled: boolean, strength: number}`. -/
structure DSPStageOptions where
  enabled : Bool
  strength : ℚ
deriving DecidableEq, Repr

/-- The `DSPProcessingOptions`: six optional stage configs, three optional band
adjustments and the optional `diagnosticsMode` flag.  `none` models an
absent field (the source destructures with defaults). -/
structure DSPProcessingOptions where
  noiseSuppression : Option DSPStageOptions := none
  transientSuppression : Option DSPStageOptions := none
  voiceIsolation : Option DSPStageOptions := none
  spectralRepair : Option DSPStageOptions := none
  dynamicEQ : Option DSPStageOptions := none
  deClickDeChirp : Option DSPStageOptions := none
  lowBandAdjustment : Option ℚ := none
  midBandAdjustment : Option ℚ := none
  highBandAdjustment : Option ℚ := none
  diagnosticsMode : Option Bool := none
deriving DecidableEq, Repr

/-!
DSP Pipeline (`src/frontend/src/lib/audioProcessor.ts`)

`processAudioWithDSP` is modelled by the pair of artifacts its control flow
produces deterministically from the options: the sequence of events visible
to the caller (progress callbacks, ordered against the completion of
offline rendering) and the ordered list of stage chains it builds.  Filter
internals live in the Web Audio graph and are opaque here; which chains are
built, in which order, and which progress values are reported, are exactly
the source's.
-/

/-- One stage chain of the pipeline, tagged by the builder that constructs it. -/
inductive StageTag where
  | preNormalization
  | noiseSuppression
  | transientSuppression
  | voiceIsolation
  | spectralRepair
  | dynamicEQ
  | deClickDeChirp
  | toneEQ
  | finalNormalization
deriving DecidableEq, Repr

/-- An event observable during a `processAudioWithDSP` run: a progress
callback `onProgress(pct, label)`, or the completion of
`offlineContext.startRendering()`. -/
inductive PEvent where
  | progress (pct : ℕ) (label : String)
  | renderingDone
deriving DecidableEq, Repr

/-- Destructuring defaults of `processAudioWithDSP` for the six stage
configs. -/
def effNoiseSuppression (o : DSPProcessingOptions) : DSPStageOptions :=
  o.noiseSuppression.getD ⟨true, 80⟩

def effTransientSuppression (o : DSPProcessingOptions) : DSPStageOptions :=
  o.transientSuppression.getD ⟨true, 75⟩

def effVoiceIsolation (o : DSPProcessingOptions) : DSPStageOptions :=
  o.voiceIsolation.getD ⟨true, 85⟩

def effSpectralRepair (o : DSPProcessingOptions) : DSPStageOptions :=
  o.spectralRepair.getD ⟨true, 70⟩

def effDynamicEQ (o : DSPProcessingOptions) : DSPStageOptions :=
  o.dynamicEQ.getD ⟨false, 50⟩

def effDeClickDeChirp (o : DSPProcessingOptions) : DSPStageOptions :=
  o.deClickDeChirp.getD ⟨false, 50⟩

def effLowBand (o : DSPProcessingOptions) : ℚ := o.lowBandAdjustment.getD 0

def effMidBand (o : DSPProcessingOptions) : ℚ := o.midBandAdjustment.getD 0

def effHighBand (o : DSPProcessingOptions) : ℚ := o.highBandAdjustment.getD 0

def effDiagnosticsMode (o : DSPProcessingOptions) : Bool :=
  o.diagnosticsMode.getD false

/-- The event trace and built stage chains of one `processAudioWithDSP`
run.  `progressStep` starts at 10 and is incremented by 12 after each of
the seven optional blocks whether or not the block's chain is built, so the
optional stages report 22, 34, 46, 58, 70, 82 and 94; pre-normalization,
final normalization, rendering and completion report the hard-coded 10, 90,
95 and 100. -/
def processAudioWithDSPTrace (o : DSPProcessingOptions) :
    List PEvent × List StageTag :=
  let ns := effNoiseSuppression o
  let ts := effTransientSuppression o
  let vi := effVoiceIsolation o
  let sr := effSpectralRepair o
  let de := effDynamicEQ o
  let dc := effDeClickDeChirp o
  let low := effLowBand o
  let mid := effMidBand o
  let high := effHighBand o
  let diag := effDiagnosticsMode o
  let optional : List PEvent × List StageTag :=
    if diag then ([], []) else
      ((if ns.enabled ∧ ns.strength > 0 then
          [.progress 22 "Suppressing background noise..."] else []) ++
       (if ts.enabled ∧ ts.strength > 0 then
          [.progress 34 "Reducing transient sounds..."] else []) ++
       (if vi.enabled ∧ vi.strength > 0 then
          [.progress 46 "Isolating voice frequencies..."] else []) ++
       (if sr.enabled ∧ sr.strength > 0 then
          [.progress 58 "Repairing spectral distortion..."] else []) ++
       (if de.enabled ∧ de.strength > 0 then
          [.progress 70 "Applying dynamic equalization..."] else []) ++
       (if dc.enabled ∧ dc.strength > 0 then
          [.progress 82 "Removing clicks and chirps..."] else []) ++
       (if low ≠ 0 ∨ mid ≠ 0 ∨ high ≠ 0 then
          [.progress 94 "Applying tone profiling..."] else []),
       (if ns.enabled ∧ ns.strength > 0 then [.noiseSuppression] else []) ++
       (if ts.enabled ∧ ts.strength > 0 then [.transientSuppression] else []) ++
       (if vi.enabled ∧ vi.strength > 0 then [.voiceIsolation] else []) ++
       (if sr.enabled ∧ sr.strength > 0 then [.spectralRepair] else []) ++
       (if de.enabled ∧ de.strength > 0 then [.dynamicEQ] else []) ++
       (if dc.enabled ∧ dc.strength > 0 then [.deClickDeChirp] else []) ++
       (if low ≠ 0 ∨ mid ≠ 0 ∨ high ≠ 0 then [.toneEQ] else []))
  ([.progress 5 "Initializing DSP pipeline...",
    .progress 10 "Applying input normalization..."] ++
   optional.1 ++
   [.progress 90 "Applying output normalization...",
    .progress 95 "Rendering audio...",
    .renderingDone,
    .progress 100 "Processing complete"],
   [.preNormalization] ++ optional.2 ++ [.finalNormalization])

/-- The stage chains built by a run. -/
def builtStages (o : DSPProcessingOptions) : List StageTag :=
  (processAudioWithDSPTrace o).2

/-- The percentage values passed to `onProgress`, in order. -/
def progressPercents (o : DSPProcessingOptions) : List ℕ :=
  (processAudioWithDSPTrace o).1.filterMap fun e =>
    match e with
    | .progress pct _ => some pct
    | .renderingDone => none

/-- Whether an event trace reports the value 100 only after rendering has
completed: no `progress 100` event occurs before the `renderingDone`
event. -/
def hundredOnlyAfterRendering : List PEvent → Bool
  | [] => true
  | .renderingDone :: _ => true
  | .progress pct _ :: rest => pct ≠ 100 && hundredOnlyAfterRendering rest

/-!
Audio buffers

An `AudioBuffer` is modelled by its sample rate, duration, frame count
(`buffer.length`) and per-channel sample data.  In a well-formed Web Audio
buffer every channel holds exactly `length` samples; reads are modelled
with a `getD` defaulting to `0` so the functions below are total.
-/

/-- A decoded audio buffer. -/
structure AudioBuffer where
  sampleRate : ℚ
  duration : ℚ
  length : ℕ
  channels : List (List JSNum)
deriving DecidableEq, Repr

/-- The `buffer.numberOfChannels`. -/
def AudioBuffer.numberOfChannels (b : AudioBuffer) : ℕ := b.channels.length

/-!
WAV Encoder (`src/frontend/src/lib/wavEncoder.ts`)

`encodeWAV` walks frames in order and channels within each frame, counting
and sanitizing each sample before converting it to a signed 16-bit
integer.  The container header is byte bookkeeping and is not modelled; the
emitted `int16` sample stream and the `EncodingDiagnostics` counters are.
-/

/-- The `EncodingDiagnostics`: counters produced as a side effect of encoding. -/
structure EncodingDiagnostics where
  sanitizedSamples : ℕ
  clippedSamples : ℕ
  totalSamples : ℕ
deriving DecidableEq, Repr

/-- The samples visited by `encodeWAV`'s nested loop, in visiting order:
frame index `i` from `0` to `buffer.length - 1`, and for each frame every
channel's sample at `i`. -/
def interleavedSamples (b : AudioBuffer) : List JSNum :=
  (List.range b.length).flatMap fun i =>
    b.channels.map fun ch => ch.getD i (.num 0)

/-- The body of `encodeWAV`'s loop for one sample: count it, sanitize NaN
and Infinity to `0`, clamp to `[-1, 1]` counting a clipped sample when the
(sanitized) value lies strictly outside, and convert to int16 with
sign-correct scaling and a final clamp to the 16-bit range. -/
def encodeWAVStep (acc : List ℤ × EncodingDiagnostics) (sample : JSNum) :
    List ℤ × EncodingDiagnostics :=
  let d := acc.2
  let d := { d with totalSamples := d.totalSamples + 1 }
  let sanitize := sample.isNaN || !sample.isFinite
  let q : ℚ := if sanitize then 0 else
    match sample with
    | .num q => q
    | _ => 0
  let d := if sanitize then
    { d with sanitizedSamples := d.sanitizedSamples + 1 } else d
  let clip := q > 1 ∨ q < -1
  let d := if clip then
    { d with clippedSamples := d.clippedSamples + 1 } else d
  let q := if clip then max (-1) (min 1 q) else q
  let int16Value := jsRound (if q < 0 then q * 0x8000 else q * 0x7FFF)
  let clampedInt16 := max (-32768) (min 32767 int16Value)
  (acc.1 ++ [clampedInt16], d)

/-- The `encodeWAV(buffer)`: the int16 sample stream and the diagnostics
counters. -/
def encodeWAV (b : AudioBuffer) : List ℤ × EncodingDiagnostics :=
  (interleavedSamples b).foldl encodeWAVStep ([], ⟨0, 0, 0⟩)

/-!
Audio metrics (`src/frontend/src/lib/audioMetrics.ts`)

`computeAudioMetrics` walks every channel's samples, skipping NaN and
Infinity values (counting them), and accumulates peak, sum of squares, DC
sum and the count of samples with `|sample| ≥ 0.99`.  The three final
divisions by `totalSamples` are unguarded, exactly as in the source.
`Math.sqrt` on finite non-negative arguments is the parameter `sqrtFn`.
-/

/-- The `AudioMetrics`.  `peakLevel` is finite by construction (only finite
samples reach the accumulator); `rmsLevel`, `dcOffset` and
`clippingPercentage` come from unguarded divisions and may be `NaN`. -/
structure AudioMetrics where
  sampleRate : ℚ
  channels : ℕ
  duration : ℚ
  peakLevel : ℚ
  rmsLevel : JSNum
  dcOffset : JSNum
  nanCount : ℕ
  infinityCount : ℕ
  clippingCount : ℕ
  clippingPercentage : JSNum
deriving DecidableEq, Repr

/-- Accumulator state of the `computeAudioMetrics` loop. -/
structure MetricsAcc where
  peakLevel : ℚ
  sumSquares : ℚ
  dcSum : ℚ
  nanCount : ℕ
  infinityCount : ℕ
  clippingCount : ℕ
  totalSamples : ℕ
deriving DecidableEq, Repr

/-- One iteration of the `computeAudioMetrics` loop: count the sample; on
NaN or Infinity bump the matching counter and `continue`; otherwise update
peak, RMS and DC accumulators and the clipping count (threshold
`|sample| ≥ 0.99`). -/
def metricsStep (acc : MetricsAcc) (sample : JSNum) : MetricsAcc :=
  let acc := { acc with totalSamples := acc.totalSamples + 1 }
  match sample with
  | .nan => { acc with nanCount := acc.nanCount + 1 }
  | .inf => { acc with infinityCount := acc.infinityCount + 1 }
  | .ninf => { acc with infinityCount := acc.infinityCount + 1 }
  | .num q =>
    let acc := { acc with
      peakLevel := max acc.peakLevel |q|,
      sumSquares := acc.sumSquares + q * q,
      dcSum := acc.dcSum + q }
    if |q| ≥ 99 / 100 then
      { acc with clippingCount := acc.clippingCount + 1 }
    else acc

/-- The `computeAudioMetrics(buffer)`. -/
def computeAudioMetrics (sqrtFn : ℚ → ℚ) (b : AudioBuffer) : AudioMetrics :=
  let acc := b.channels.foldl (fun acc ch => ch.foldl metricsStep acc)
    ⟨0, 0, 0, 0, 0, 0, 0⟩
  { sampleRate := b.sampleRate
    channels := b.numberOfChannels
    duration := b.duration
    peakLevel := acc.peakLevel
    rmsLevel := (JSNum.div acc.sumSquares acc.totalSamples).sqrt sqrtFn
    dcOffset := JSNum.div acc.dcSum acc.totalSamples
    nanCount := acc.nanCount
    infinityCount := acc.infinityCount
    clippingCount := acc.clippingCount
    clippingPercentage :=
      (JSNum.div acc.clippingCount acc.totalSamples).mulConst 100 }

/-- One abnormality issue pushed by `detectAbnormalities`.  The source
pushes formatted message strings; only the issue kind (and hence the list's
emptiness) is observable to the properties below, so the numeric
interpolation / `toFixed` formatting of the messages is not modelled. -/
inductive AbnormalityIssue where
  | nanSamples
  | infinitySamples
  | clippingAboveFivePercent
  | highDCOffset
  | peakAboveOne
deriving DecidableEq, Repr

/-- Result type of `detectAbnormalities`. -/
structure Abnormalities where
  hasAbnormalities : Bool
  issues : List AbnormalityIssue
deriving DecidableEq, Repr

/-- The `detectAbnormalities(metrics)`: the five checks in source order; any
matching issue is listed and `hasAbnormalities` is `issues.length > 0`.
Comparisons against `NaN` values are false, as in JavaScript. -/
def detectAbnormalities (m : AudioMetrics) : Abnormalities :=
  let issues :=
    (if m.nanCount > 0 then [AbnormalityIssue.nanSamples] else []) ++
    (if m.infinityCount > 0 then [AbnormalityIssue.infinitySamples] else []) ++
    (if m.clippingPercentage.gtQ 5 then
      [AbnormalityIssue.clippingAboveFivePercent] else []) ++
    (if m.dcOffset.abs.gtQ (1 / 10) then
      [AbnormalityIssue.highDCOffset] else []) ++
    (if m.peakLevel > 1 then [AbnormalityIssue.peakAboveOne] else [])
  { hasAbnormalities := issues.length > 0, issues := issues }

/-!
Triple-Check Diagnostics (checkpoint assembly and source stage)

`runTripleCheck` pushes exactly three checkpoints, in the fixed order
input → early-pipeline → final-output, measuring each buffer with
`computeAudioMetrics` / `detectAbnormalities`; decoding, offline rendering
and the encode/decode round trip are platform effects, so the assembly is
modelled as a function of the three buffers the awaits produce.
-/

/-- The stage of a checkpoint. -/
inductive CheckpointStage where
  | input
  | earlyPipeline
  | finalOutput
deriving DecidableEq, Repr

/-- The `sourceStage` values: a checkpoint stage or `'none'`. -/
inductive SourceStage where
  | input
  | earlyPipeline
  | finalOutput
  | none
deriving DecidableEq, Repr

/-- Injection of a checkpoint's stage into the `sourceStage` union. -/
def CheckpointStage.toSourceStage : CheckpointStage → SourceStage
  | .input => .input
  | .earlyPipeline => .earlyPipeline
  | .finalOutput => .finalOutput

/-- The `CheckpointResult`. -/
structure CheckpointResult where
  name : String
  stage : CheckpointStage
  metrics : AudioMetrics
  abnormalities : Abnormalities
  audioUrl : String
deriving DecidableEq, Repr

/-- The `determineSourceStage(checkpoints)`: the stage of the first checkpoint
whose `abnormalities.hasAbnormalities` is true, else `'none'`. -/
def determineSourceStage (checkpoints : List CheckpointResult) : SourceStage :=
  match checkpoints.find? (fun cp => cp.abnormalities.hasAbnormalities) with
  | some cp => cp.stage.toSourceStage
  | Option.none => .none

/-- The checkpoint list assembled by a completed `runTripleCheck` run from
the decoded input buffer, the diagnostics-mode render, and the round-tripped
final render, in the order the source pushes them. -/
def runTripleCheckCheckpoints (sqrtFn : ℚ → ℚ)
    (decodedBuffer earlyPipelineBuffer finalDecodedBuffer : AudioBuffer)
    (inputUrl earlyUrl finalUrl : String) : List CheckpointResult :=
  let inputMetrics := computeAudioMetrics sqrtFn decodedBuffer
  let earlyMetrics := computeAudioMetrics sqrtFn earlyPipelineBuffer
  let finalMetrics := computeAudioMetrics sqrtFn finalDecodedBuffer
  [{ name := "Decoded Input", stage := .input, metrics := inputMetrics,
     abnormalities := detectAbnormalities inputMetrics, audioUrl := inputUrl },
   { name := "Early Pipeline (Pre-norm + Final-norm only)",
     stage := .earlyPipeline, metrics := earlyMetrics,
     abnormalities := detectAbnormalities earlyMetrics, audioUrl := earlyUrl },
   { name := "Final Processed Output (Full DSP + Encode/Decode)",
     stage := .finalOutput, metrics := finalMetrics,
     abnormalities := detectAbnormalities finalMetrics, audioUrl := finalUrl }]

/-!
Triple-Check Diagnostics: failure control flow and resource handling

`runTripleCheck` has five suspension points that can throw: reading the
file, decoding the input, the two offline renders, and the round-trip
decode inside `decodeWAV`.  Its only error handling is one `catch` that
wraps the error message and rethrows; there is no `finally`, no
`URL.revokeObjectURL`, and `audioContext.close()` (both for the main
context and for the transient context `decodeWAV` opens) is reached only on
the success path.  The model below injects a failure at a chosen step and
records the resource events the source actually performs.
-/

/-- A failable step of the `runTripleCheck` run, in execution order. -/
inductive TCStep where
  | fileArrayBuffer
  | decodeInput
  | renderEarlyPipeline
  | renderFinalOutput
  | roundTripDecode
deriving DecidableEq, Repr

/-- Resource events of one `runTripleCheck` run: object URLs created via
`URL.createObjectURL` and revoked via `URL.revokeObjectURL`, and
`AudioContext`s opened and closed. -/
structure TCResources where
  urlsCreated : List String
  urlsRevoked : List String
  contextsOpened : ℕ
  contextsClosed : ℕ
deriving DecidableEq, Repr

/-- One `runTripleCheck` run in which the step `failAt` (when present)
throws: the result delivered to the caller — the wrapped error of the
`catch`, or the three checkpoint stages of the report — together with the
resource events performed before returning. -/
def runTripleCheckRun (failAt : Option TCStep) :
    Except String (List CheckpointStage) × TCResources :=
  let wrap (msg : String) : String := "Triple Check diagnostics failed: " ++ msg
  let r0 : TCResources := ⟨[], [], 0, 0⟩
  if failAt = some .fileArrayBuffer then (.error (wrap "file read failed"), r0)
  else
    -- new AudioContext()
    let r1 := { r0 with contextsOpened := r0.contextsOpened + 1 }
    if failAt = some .decodeInput then (.error (wrap "decode failed"), r1)
    else
      -- URL.createObjectURL(inputWav.blob)
      let r2 := { r1 with urlsCreated := r1.urlsCreated ++ ["input"] }
      if failAt = some .renderEarlyPipeline then
        (.error (wrap "render failed"), r2)
      else
        -- URL.createObjectURL(earlyWav.blob)
        let r3 := { r2 with urlsCreated := r2.urlsCreated ++ ["early-pipeline"] }
        if failAt = some .renderFinalOutput then
          (.error (wrap "render failed"), r3)
        else
          -- decodeWAV opens its own transient AudioContext
          let r4 := { r3 with contextsOpened := r3.contextsOpened + 1 }
          if failAt = some .roundTripDecode then
            (.error (wrap "decode failed"), r4)
          else
            -- decodeWAV closes its context only when decoding succeeded
            let r5 := { r4 with contextsClosed := r4.contextsClosed + 1 }
            -- URL.createObjectURL(finalWav.blob)
            let r6 := { r5 with urlsCreated := r5.urlsCreated ++ ["final-output"] }
            -- await audioContext.close()
            let r7 := { r6 with contextsClosed := r6.contextsClosed + 1 }
            (.ok [.input, .earlyPipeline, .finalOutput], r7)

/-!
Auto-Tuner (`src/frontend/src/lib/autoDspAutoTune.ts`,
`generateSuggestedSettings` of `autoAudioAssessment.ts`)

Feature extraction (`analyzeAudioFile`) is an awaited effect that can
throw; `autoTuneDSP` is therefore modelled as a function of its outcome: a
feature record on success, `none` on failure (the `catch` branch).
-/

/-- The `AudioFeatures` as consumed by the suggestion engine (every field a
finite number). -/
structure AudioFeatures where
  rmsLevel : ℚ
  peakLevel : ℚ
  dynamicRange : ℚ
  noiseFloor : ℚ
  spectralCentroid : ℚ
  spectralRolloff : ℚ
  zeroCrossingRate : ℚ
  lowEnergyRatio : ℚ
  midEnergyRatio : ℚ
  highEnergyRatio : ℚ
  sibilanceEnergy : ℚ
  transientDensity : ℚ
deriving DecidableEq, Repr

/-- The `SuggestedSettings`. -/
structure SuggestedSettings where
  noiseSuppression : Bool
  noiseSuppressionStrength : ℚ
  transientSuppression : Bool
  transientSuppressionStrength : ℚ
  voiceIsolation : Bool
  voiceIsolationStrength : ℚ
  spectralRepair : Bool
  spectralRepairStrength : ℚ
  dynamicEQ : Bool
  dynamicEQStrength : ℚ
  deClickDeChirp : Bool
  deClickDeChirpStrength : ℚ
  lowBand : ℚ
  midBand : ℚ
  highBand : ℚ
  confidence : ℚ
deriving DecidableEq, Repr

/-- The `generateSuggestedSettings(features)`: deterministic thresholds on the
feature record, with `Math.round` / `Math.min` / `Math.max` exactly as in
the source. -/
def generateSuggestedSettings (features : AudioFeatures) : SuggestedSettings :=
  let noiseSuppressionNeeded :=
    features.noiseFloor > 2 / 100 ∨ features.zeroCrossingRate > 15 / 100
  let noiseSuppressionStrength : ℚ :=
    min 100 (max 30 ((jsRound ((features.noiseFloor / (1 / 10)) * 100) : ℤ) : ℚ))
  let transientSuppressionNeeded := features.transientDensity > 3 / 10
  let transientSuppressionStrength : ℚ :=
    min 100 (max 40 ((jsRound (features.transientDensity * 150) : ℤ) : ℚ))
  let voiceIsolationNeeded :=
    features.midEnergyRatio > 4 / 10 ∧ features.spectralCentroid < 2500
  let voiceIsolationStrength : ℚ :=
    min 100 (max 50 ((jsRound (features.midEnergyRatio * 120) : ℤ) : ℚ))
  let spectralRepairNeeded :=
    features.sibilanceEnergy > 8 / 100 ∨ features.spectralRolloff > 8000
  let spectralRepairStrength : ℚ :=
    min 100 (max 40 ((jsRound ((features.sibilanceEnergy / (2 / 10)) * 100) : ℤ) : ℚ))
  let frequencyImbalance :=
    max (|features.lowEnergyRatio - 33 / 100|)
      (max (|features.midEnergyRatio - 33 / 100|)
        (|features.highEnergyRatio - 33 / 100|))
  let dynamicEQNeeded := frequencyImbalance > 15 / 100
  let dynamicEQStrength : ℚ :=
    min 100 (max 30 ((jsRound (frequencyImbalance * 200) : ℤ) : ℚ))
  let deClickDeChirpNeeded :=
    features.zeroCrossingRate > 2 / 10 ∨ features.transientDensity > 5 / 10
  let deClickDeChirpStrength : ℚ :=
    min 100 (max 35 ((jsRound (features.zeroCrossingRate * 300) : ℤ) : ℚ))
  let lowBand : ℚ :=
    if features.lowEnergyRatio > 45 / 100 then
      -(min 6 ((jsRound ((features.lowEnergyRatio - 45 / 100) * 30) : ℤ) : ℚ))
    else if features.lowEnergyRatio < 25 / 100 then
      min 4 ((jsRound ((25 / 100 - features.lowEnergyRatio) * 20) : ℤ) : ℚ)
    else 0
  let midBand : ℚ :=
    if voiceIsolationNeeded ∧ features.midEnergyRatio < 4 / 10 then
      min 5 ((jsRound ((4 / 10 - features.midEnergyRatio) * 25) : ℤ) : ℚ)
    else if features.midEnergyRatio > 5 / 10 then
      -(min 4 ((jsRound ((features.midEnergyRatio - 5 / 10) * 20) : ℤ) : ℚ))
    else 0
  let highBand : ℚ :=
    if features.sibilanceEnergy > 12 / 100 then
      -(min 6 ((jsRound ((features.sibilanceEnergy - 12 / 100) * 40) : ℤ) : ℚ))
    else if features.spectralCentroid < 1500 ∧ features.highEnergyRatio < 2 / 10 then
      min 4 ((jsRound ((2 / 10 - features.highEnergyRatio) * 20) : ℤ) : ℚ)
    else 0
  let confidence : ℚ :=
    min 1
      ((if features.rmsLevel > 1 / 100 then 3 / 10 else 0) +
       (if features.dynamicRange > 6 then 3 / 10 else 0) +
       (if |features.lowEnergyRatio + features.midEnergyRatio +
            features.highEnergyRatio - 1| < 1 / 10 then 4 / 10 else 0))
  { noiseSuppression := noiseSuppressionNeeded
    noiseSuppressionStrength := noiseSuppressionStrength
    transientSuppression := transientSuppressionNeeded
    transientSuppressionStrength := transientSuppressionStrength
    voiceIsolation := voiceIsolationNeeded
    voiceIsolationStrength := voiceIsolationStrength
    spectralRepair := spectralRepairNeeded
    spectralRepairStrength := spectralRepairStrength
    dynamicEQ := dynamicEQNeeded
    dynamicEQStrength := dynamicEQStrength
    deClickDeChirp := deClickDeChirpNeeded
    deClickDeChirpStrength := deClickDeChirpStrength
    lowBand := lowBand
    midBand := midBand
    highBand := highBand
    confidence := confidence }

/-- The `AutoTuneResult`. -/
structure AutoTuneResult where
  dspOptions : DSPProcessingOptions
  features : AudioFeatures
  suggestions : SuggestedSettings
  appliedIntensity : ℚ
deriving DecidableEq, Repr

/-- The `autoTuneDSP(file, intensity)` as a function of the feature-extraction
outcome: on success, clamp the intensity to `[0, 1]`, scale the suggested
strengths and band adjustments, and gate every `enabled` flag by
`clampedIntensity > 0.1`; on extraction failure (`none`), the `catch`
branch returns the fixed safe-default configuration, echoing the raw
intensity as `appliedIntensity`. -/
def autoTuneDSP (featuresResult : Option AudioFeatures) (intensity : ℚ) :
    AutoTuneResult :=
  match featuresResult with
  | some features =>
    let clampedIntensity := max 0 (min 1 intensity)
    let suggestions := generateSuggestedSettings features
    let scaledSuggestions := { suggestions with
      noiseSuppressionStrength :=
        ((jsRound (suggestions.noiseSuppressionStrength * clampedIntensity) : ℤ) : ℚ)
      transientSuppressionStrength :=
        ((jsRound (suggestions.transientSuppressionStrength * clampedIntensity) : ℤ) : ℚ)
      voiceIsolationStrength :=
        ((jsRound (suggestions.voiceIsolationStrength * clampedIntensity) : ℤ) : ℚ)
      spectralRepairStrength :=
        ((jsRound (suggestions.spectralRepairStrength * clampedIntensity) : ℤ) : ℚ)
      dynamicEQStrength :=
        ((jsRound (suggestions.dynamicEQStrength * clampedIntensity) : ℤ) : ℚ)
      deClickDeChirpStrength :=
        ((jsRound (suggestions.deClickDeChirpStrength * clampedIntensity) : ℤ) : ℚ)
      lowBand := suggestions.lowBand * clampedIntensity
      midBand := suggestions.midBand * clampedIntensity
      highBand := suggestions.highBand * clampedIntensity }
    let dspOptions : DSPProcessingOptions :=
      { noiseSuppression := some
          ⟨scaledSuggestions.noiseSuppression && decide (clampedIntensity > 1 / 10),
           scaledSuggestions.noiseSuppressionStrength⟩
        transientSuppression := some
          ⟨scaledSuggestions.transientSuppression && decide (clampedIntensity > 1 / 10),
           scaledSuggestions.transientSuppressionStrength⟩
        voiceIsolation := some
          ⟨scaledSuggestions.voiceIsolation && decide (clampedIntensity > 1 / 10),
           scaledSuggestions.voiceIsolationStrength⟩
        spectralRepair := some
          ⟨scaledSuggestions.spectralRepair && decide (clampedIntensity > 1 / 10),
           scaledSuggestions.spectralRepairStrength⟩
        dynamicEQ := some
          ⟨scaledSuggestions.dynamicEQ && decide (clampedIntensity > 1 / 10),
           scaledSuggestions.dynamicEQStrength⟩
        deClickDeChirp := some
          ⟨scaledSuggestions.deClickDeChirp && decide (clampedIntensity > 1 / 10),
           scaledSuggestions.deClickDeChirpStrength⟩
        lowBandAdjustment := some scaledSuggestions.lowBand
        midBandAdjustment := some scaledSuggestions.midBand
        highBandAdjustment := some scaledSuggestions.highBand
        diagnosticsMode := none }
    { dspOptions := dspOptions
      features := features
      suggestions := scaledSuggestions
      appliedIntensity := clampedIntensity }
  | Option.none =>
    { dspOptions :=
        { noiseSuppression := some ⟨true, 50⟩
          transientSuppression := some ⟨true, 50⟩
          voiceIsolation := some ⟨true, 50⟩
          spectralRepair := some ⟨true, 50⟩
          dynamicEQ := some ⟨false, 50⟩
          deClickDeChirp := some ⟨false, 50⟩
          lowBandAdjustment := some 0
          midBandAdjustment := some 0
          highBandAdjustment := some 0
          diagnosticsMode := none }
      features := ⟨0, 0, 0, 0, 0, 0, 0, 0, 0, 0, 0, 0⟩
      suggestions :=
        { noiseSuppression := true, noiseSuppressionStrength := 50
          transientSuppression := true, transientSuppressionStrength := 50
          voiceIsolation := true, voiceIsolationStrength := 50
          spectralRepair := true, spectralRepairStrength := 50
          dynamicEQ := false, dynamicEQStrength := 50
          deClickDeChirp := false, deClickDeChirpStrength := 50
          lowBand := 0, midBand := 0, highBand := 0, confidence := 0 }
      appliedIntensity := intensity }

/-!
Feature Extractor (`analyzeAudioFile` of `autoAudioAssessment.ts`)

The numeric core of `analyzeAudioFile`, over the first channel's decoded
samples (finite values) and the sample rate.  `Math.sqrt` and `Math.log10`
on finite arguments are the parameters `sqrtFn` / `log10Fn`, and the DFT's
`Math.cos((2πkn)/N)` / `Math.sin((2πkn)/N)` are the coefficient parameters
`cosCoef k n` / `sinCoef k n` (their values are irrelevant to every theorem
below, which concern silent buffers where the products vanish).
`Math.floor(sampleRate * 0.1)` and `Math.floor(sampleRate * 0.01)` are the
natural-number divisions by 10 and 100.  For `sampleRate < 10` the source's
window loop would not terminate (`length / 0 = Infinity` windows); the
embedding then takes zero windows, and no theorem below touches that
corner.
-/

/-- The feature record produced by `analyzeAudioFile`.  Fields produced by
unguarded divisions are JavaScript numbers (possibly `NaN`); fields that
are guarded or accumulated from finite values are rationals. -/
structure AudioFeaturesJS where
  rmsLevel : JSNum
  peakLevel : ℚ
  dynamicRange : JSNum
  noiseFloor : ℚ
  spectralCentroid : JSNum
  spectralRolloff : JSNum
  zeroCrossingRate : JSNum
  lowEnergyRatio : ℚ
  midEnergyRatio : ℚ
  highEnergyRatio : ℚ
  sibilanceEnergy : ℚ
  transientDensity : JSNum
deriving DecidableEq, Repr

/-- Accumulator of the first loop of `analyzeAudioFile` (RMS, peak,
zero-crossing detection with `previousSample` starting at `0`). -/
structure AnalyzeLoopAcc where
  sumSquares : ℚ
  peakLevel : ℚ
  zeroCrossings : ℕ
  previousSample : ℚ
deriving DecidableEq, Repr

/-- One iteration of the first loop of `analyzeAudioFile`. -/
def analyzeLoopStep (acc : AnalyzeLoopAcc) (sample : ℚ) : AnalyzeLoopAcc :=
  { sumSquares := acc.sumSquares + sample * sample
    peakLevel := max acc.peakLevel |sample|
    zeroCrossings := acc.zeroCrossings +
      (if (acc.previousSample ≥ 0 ∧ sample < 0) ∨
          (acc.previousSample < 0 ∧ sample ≥ 0) then 1 else 0)
    previousSample := sample }

/-- The `Math.max(...window.map(Math.abs))` for the non-empty windows of the
transient loop (the `0` seed is unreachable there and agrees with the
maximum of absolute values on non-empty input). -/
def maxAbs (l : List ℚ) : ℚ := l.foldl (fun a x => max a |x|) 0

/-- The `computeMagnitudeSpectrum(samples)`: direct DFT, one magnitude per bin
`k < N / 2`, `sqrt(real² + imag²) / N`. -/
def computeMagnitudeSpectrum (sqrtFn : ℚ → ℚ) (cosCoef sinCoef : ℕ → ℕ → ℚ)
    (samples : List ℚ) : List ℚ :=
  let N := samples.length
  (List.range (N / 2)).map fun k =>
    let real := (List.range N).foldl
      (fun s n => s + samples.getD n 0 * cosCoef k n) 0
    let imag := (List.range N).foldl
      (fun s n => s - samples.getD n 0 * sinCoef k n) 0
    sqrtFn (real * real + imag * imag) / (N : ℚ)

/-- Spectral accumulators of `analyzeAudioFile`, summed across analyzed
windows. -/
structure SpectralAcc where
  centroidSum : ℚ
  rolloffSum : ℚ
  lowEnergy : ℚ
  midEnergy : ℚ
  highEnergy : ℚ
  sibilance : ℚ
deriving DecidableEq, Repr

/-- Per-bin totals of one spectral window. -/
structure WindowTotals where
  totalEnergy : ℚ
  weightedFreqSum : ℚ
  lowEnergy : ℚ
  midEnergy : ℚ
  highEnergy : ℚ
  sibilance : ℚ
deriving DecidableEq, Repr

/-- One bin of the per-bin loop of a spectral window: energy totals, the
energy-weighted frequency sum, band energies (boundaries 250 Hz and
4000 Hz) and sibilance energy (6-10 kHz). -/
def windowTotalsStep (freqBinWidth : ℚ) (t : WindowTotals) (p : ℕ × ℚ) :
    WindowTotals :=
  let freq := (p.1 : ℚ) * freqBinWidth
  let energy := p.2 * p.2
  { totalEnergy := t.totalEnergy + energy
    weightedFreqSum := t.weightedFreqSum + freq * energy
    lowEnergy := t.lowEnergy + (if freq < 250 then energy else 0)
    midEnergy := t.midEnergy +
      (if freq < 250 then 0 else if freq < 4000 then energy else 0)
    highEnergy := t.highEnergy +
      (if freq < 250 ∨ freq < 4000 then 0 else energy)
    sibilance := t.sibilance +
      (if 6000 ≤ freq ∧ freq ≤ 10000 then energy else 0) }

/-- The per-bin loop of one spectral window. -/
def windowTotals (freqBinWidth : ℚ) (spectrum : List ℚ) : WindowTotals :=
  spectrum.enum.foldl (windowTotalsStep freqBinWidth) ⟨0, 0, 0, 0, 0, 0⟩

/-- The rolloff scan of one window: the first bin index at which the
cumulative energy reaches the threshold. -/
def rolloffIdx (threshold : ℚ) : List ℚ → ℚ → ℕ → Option ℕ
  | [], _, _ => none
  | x :: rest, cum, i =>
    let cum := cum + x * x
    if cum ≥ threshold then some i else rolloffIdx threshold rest cum (i + 1)

/-- Processing of one spectral window of `analyzeAudioFile`: add the
window's centroid (when its total energy is positive — the source's guard),
its rolloff frequency (85% cumulative energy) and its band energies to the
running sums. -/
def spectralWindowUpdate (sampleRate : ℕ) (spectrum : List ℚ)
    (acc : SpectralAcc) : SpectralAcc :=
  let freqBinWidth : ℚ := (sampleRate : ℚ) / 2048
  let t := windowTotals freqBinWidth spectrum
  let centroid := if t.totalEnergy > 0 then t.weightedFreqSum / t.totalEnergy else 0
  let rolloff := match rolloffIdx ((85 / 100) * t.totalEnergy) spectrum 0 0 with
    | some i => (i : ℚ) * freqBinWidth
    | none => 0
  { centroidSum := acc.centroidSum + centroid
    rolloffSum := acc.rolloffSum + rolloff
    lowEnergy := acc.lowEnergy + t.lowEnergy
    midEnergy := acc.midEnergy + t.midEnergy
    highEnergy := acc.highEnergy + t.highEnergy
    sibilance := acc.sibilance + t.sibilance }

/-- The noise-floor computation of `analyzeAudioFile`: per-window RMS over
100 ms windows, ascending sort, 10th-percentile pick with `|| 0` for an
out-of-range index. -/
def noiseFloorOf (sqrtFn : ℚ → ℚ) (sampleRate : ℕ) (channelData : List ℚ) : ℚ :=
  let length := channelData.length
  let windowSize := sampleRate / 10
  let windowCount := if windowSize = 0 then 0 else length / windowSize
  let windowRMS : List ℚ := (List.range windowCount).map fun w =>
    let start := w * windowSize
    let stop := min (start + windowSize) length
    let seg := (channelData.drop start).take (stop - start)
    sqrtFn (seg.foldl (fun s x => s + x * x) 0 / ((stop - start : ℕ) : ℚ))
  let sorted := windowRMS.mergeSort (fun a b => a ≤ b)
  sorted.getD (sorted.length / 10) 0

/-- The spectral loop of `analyzeAudioFile`: non-overlapping 2048-sample
windows, at most 50 analyzed. -/
def spectralAccOf (sqrtFn : ℚ → ℚ) (cosCoef sinCoef : ℕ → ℕ → ℚ)
    (sampleRate : ℕ) (channelData : List ℚ) : SpectralAcc :=
  let fftCount := channelData.length / 2048
  (List.range (min fftCount 50)).foldl
    (fun s f =>
      let fftData := (channelData.drop (f * 2048)).take 2048
      spectralWindowUpdate sampleRate
        (computeMagnitudeSpectrum sqrtFn cosCoef sinCoef fftData) s)
    ⟨0, 0, 0, 0, 0, 0⟩

/-- The transient loop of `analyzeAudioFile`: a 10 ms stride, flagging a
window whose peak exceeds `3 · RMS` and twice the previous window's
peak. -/
def transientCountOf (rmsLevel : JSNum) (sampleRate : ℕ)
    (channelData : List ℚ) : ℕ :=
  let length := channelData.length
  let w := sampleRate / 100
  let starts : List ℕ :=
    if w = 0 then [] else
      (List.range (length / w + 1)).filterMap fun k =>
        let i := w * (k + 1)
        if i < length - w then some i else none
  starts.countP fun i =>
    let prevPeak := maxAbs ((channelData.drop (i - w)).take w)
    let currPeak := maxAbs ((channelData.drop i).take w)
    (match rmsLevel.mulConst 3 with
     | .num t => decide (currPeak > t)
     | .nan => false
     | .inf => false
     | .ninf => true) && decide (currPeak > prevPeak * 2)

/-- Numeric core of `analyzeAudioFile`: from the sample rate and the first
channel's samples to the feature record. -/
def analyzeAudioSamples (sqrtFn log10Fn : ℚ → ℚ) (cosCoef sinCoef : ℕ → ℕ → ℚ)
    (sampleRate : ℕ) (channelData : List ℚ) : AudioFeaturesJS :=
  let length := channelData.length
  let acc := channelData.foldl analyzeLoopStep ⟨0, 0, 0, 0⟩
  let rmsLevel := (JSNum.div acc.sumSquares length).sqrt sqrtFn
  let zeroCrossingRate := JSNum.div acc.zeroCrossings length
  let dynamicRange : JSNum :=
    match rmsLevel with
    | .num r =>
      if acc.peakLevel > 0 ∧ r > 0 then .num (20 * log10Fn (acc.peakLevel / r))
      else .num 0
    | _ => .num 0
  let noiseFloor := noiseFloorOf sqrtFn sampleRate channelData
  let spectral := spectralAccOf sqrtFn cosCoef sinCoef sampleRate channelData
  let avgCount := min (length / 2048) 50
  let spectralCentroid := JSNum.div spectral.centroidSum avgCount
  let spectralRolloff := JSNum.div spectral.rolloffSum avgCount
  let totalSpectralEnergy :=
    spectral.lowEnergy + spectral.midEnergy + spectral.highEnergy
  let lowEnergyRatio :=
    if totalSpectralEnergy > 0 then spectral.lowEnergy / totalSpectralEnergy else 0
  let midEnergyRatio :=
    if totalSpectralEnergy > 0 then spectral.midEnergy / totalSpectralEnergy else 0
  let highEnergyRatio :=
    if totalSpectralEnergy > 0 then spectral.highEnergy / totalSpectralEnergy else 0
  let sibilanceEnergy :=
    if totalSpectralEnergy > 0 then spectral.sibilance / totalSpectralEnergy else 0
  let transientCount := transientCountOf rmsLevel sampleRate channelData
  let transientDensityRaw :=
    JSNum.div (transientCount : ℚ) ((length : ℚ) / (sampleRate : ℚ))
  let transientDensity : JSNum :=
    match transientDensityRaw with
    | .num q => .num (min (q / 10) 1)
    | .nan => .nan
    | .inf => .num 1
    | .ninf => .ninf
  { rmsLevel := rmsLevel
    peakLevel := acc.peakLevel
    dynamicRange := dynamicRange
    noiseFloor := noiseFloor
    spectralCentroid := spectralCentroid
    spectralRolloff := spectralRolloff
    zeroCrossingRate := zeroCrossingRate
    lowEnergyRatio := lowEnergyRatio
    midEnergyRatio := midEnergyRatio
    highEnergyRatio := highEnergyRatio
    sibilanceEnergy := sibilanceEnergy
    transientDensity := transientDensity }

/-!
Claims
-/

/-- C2, counterexample: the duplicate DSP-types module's `strengthToThreshold`
is not inverted — at strength 0 with `minThreshold = -85`,
`maxThreshold = -50` it returns the min endpoint `-85`, not the max endpoint
`-50` the claimed formula `max - (strength/100)·(max - min)` requires. -/
theorem c2_part002_not_inverted :
    LegacyDspTypes.strengthToThreshold 0 (-85) (-50) = -85 ∧
    LegacyDspTypes.strengthToThreshold 0 (-85) (-50) ≠
      -50 - (0 / 100) * (-50 - (-85)) := by
  constructor
  · norm_num [LegacyDspTypes.strengthToThreshold]
  · norm_num [LegacyDspTypes.strengthToThreshold]

/-- C2 (amended): the `dsp/dspTypes.ts` `strengthToThreshold` — the one the
stage builders import — satisfies the inverted formula
`max - (strength/100)·(max - min)`, maps strength 0 to `maxThreshold` and
strength 100 to `minThreshold` exactly, and is monotonically non-increasing
in strength when `minThreshold ≤ maxThreshold`; the duplicate module's
same-named function instead computes the non-inverted
`min + (strength/100)·(max - min)`. -/
theorem c2_strengthToThreshold_inversion
    (strength minThreshold maxThreshold s t : ℚ)
    (hminmax : minThreshold ≤ maxThreshold) (hst : s ≤ t) :
    DspTypes.strengthToThreshold strength minThreshold maxThreshold =
      maxThreshold - (strength / 100) * (maxThreshold - minThreshold) ∧
    DspTypes.strengthToThreshold 0 minThreshold maxThreshold = maxThreshold ∧
    DspTypes.strengthToThreshold 100 minThreshold maxThreshold = minThreshold ∧
    DspTypes.strengthToThreshold t minThreshold maxThreshold ≤
      DspTypes.strengthToThreshold s minThreshold maxThreshold ∧
    LegacyDspTypes.strengthToThreshold strength minThreshold maxThreshold =
      minThreshold + (strength / 100) * (maxThreshold - minThreshold) := by
  refine ⟨rfl, by norm_num [DspTypes.strengthToThreshold],
    by norm_num [DspTypes.strengthToThreshold], ?_, ?_⟩
  · unfold DspTypes.strengthToThreshold
    nlinarith
  · unfold LegacyDspTypes.strengthToThreshold
    ring

/-- C2, witness for the amended theorem at strength 37, thresholds
`[-85, -50]`, and the strength pair 20 ≤ 60. -/
theorem c2_strengthToThreshold_inversion_witness :
    (-85 : ℚ) ≤ -50 ∧ (20 : ℚ) ≤ 60 ∧
    (DspTypes.strengthToThreshold 37 (-85) (-50) =
      -50 - (37 / 100) * (-50 - (-85)) ∧
    DspTypes.strengthToThreshold 0 (-85) (-50) = -50 ∧
    DspTypes.strengthToThreshold 100 (-85) (-50) = -85 ∧
    DspTypes.strengthToThreshold 60 (-85) (-50) ≤
      DspTypes.strengthToThreshold 20 (-85) (-50) ∧
    LegacyDspTypes.strengthToThreshold 37 (-85) (-50) =
      -85 + (37 / 100) * (-50 - (-85))) :=
  ⟨by norm_num, by norm_num,
   c2_strengthToThreshold_inversion 37 (-85) (-50) 20 60 (by norm_num)
     (by norm_num)⟩


/-- A one-sample, one-channel buffer whose only sample is exactly 1.0. -/
def constantOneBuffer : AudioBuffer :=
  { sampleRate := 44100, duration := 1 / 44100, length := 1,
    channels := [[JSNum.num 1]] }

/-- The counters of one `encodeWAV` loop iteration on a finite sample
inside `[-1, 1]`: only `totalSamples` advances. -/
theorem encodeWAVStep_snd_inrange (acc : List ℤ × EncodingDiagnostics) (q : ℚ)
    (h : ¬(q > 1 ∨ q < -1)) :
    (encodeWAVStep acc (JSNum.num q)).2 =
      { acc.2 with totalSamples := acc.2.totalSamples + 1 } := by
  show (if q > 1 ∨ q < -1 then _ else _) = _
  rw [if_neg h]
  simp [JSNum.isNaN, JSNum.isFinite]

/-- C1, counterexample: a buffer of constant value 1.0 has every sample at
the clip boundary, yet `encodeWAV` reports `clippedSamples = 0`, not
`totalSamples = 1` — the encoder counts a clip only when a sample lies
strictly outside `[-1, 1]`. -/
theorem c1_constant_one_counterexample :
    (∀ s ∈ interleavedSamples constantOneBuffer, s = JSNum.num 1) ∧
    (encodeWAV constantOneBuffer).2.totalSamples = 1 ∧
    (encodeWAV constantOneBuffer).2.clippedSamples ≠
      (encodeWAV constantOneBuffer).2.totalSamples := by
  have hi : interleavedSamples constantOneBuffer = [JSNum.num 1] := rfl
  have henc : (encodeWAV constantOneBuffer).2 = ⟨0, 0, 1⟩ := by
    show ((interleavedSamples constantOneBuffer).foldl encodeWAVStep
      ([], ⟨0, 0, 0⟩)).2 = _
    rw [hi, List.foldl_cons, List.foldl_nil,
      encodeWAVStep_snd_inrange _ _ (by norm_num)]
  refine ⟨?_, by rw [henc], by rw [henc]; simp⟩
  intro s hs
  rw [hi] at hs
  simpa using hs

/-- Samples visited by `encodeWAV` on an all-ones buffer are `1.0` (or the
out-of-range read default `0`, unreachable on a well-formed buffer). -/
theorem interleaved_all_one (b : AudioBuffer)
    (h : ∀ ch ∈ b.channels, ∀ s ∈ ch, s = JSNum.num 1) :
    ∀ s ∈ interleavedSamples b, s = JSNum.num 1 ∨ s = JSNum.num 0 := by
  intro s hs
  simp only [interleavedSamples, List.mem_flatMap, List.mem_map] at hs
  obtain ⟨i, _, ch, hch, rfl⟩ := hs
  rcases Nat.lt_or_ge i ch.length with hi | hi
  · left
    rw [List.getD_eq_getElem ch _ hi]
    exact h ch hch _ (List.getElem_mem hi)
  · right
    rw [List.getD_eq_default ch _ hi]

/-- The encoder's counters are unchanged by samples equal to `1` or `0`:
neither is NaN/Infinity and neither lies strictly outside `[-1, 1]`. -/
theorem encodeWAV_foldl_ones (l : List JSNum)
    (h : ∀ s ∈ l, s = JSNum.num 1 ∨ s = JSNum.num 0) :
    ∀ acc : List ℤ × EncodingDiagnostics,
      ((l.foldl encodeWAVStep acc).2.sanitizedSamples =
        acc.2.sanitizedSamples ∧
       (l.foldl encodeWAVStep acc).2.clippedSamples = acc.2.clippedSamples) := by
  induction l with
  | nil => intro acc; exact ⟨rfl, rfl⟩
  | cons x xs ih =>
    intro acc
    have hx := h x (List.mem_cons_self x xs)
    have hxs : ∀ s ∈ xs, s = JSNum.num 1 ∨ s = JSNum.num 0 :=
      fun s hs => h s (List.mem_cons_of_mem x hs)
    rw [List.foldl_cons]
    obtain ⟨h1, h2⟩ := ih hxs (encodeWAVStep acc x)
    rw [h1, h2]
    rcases hx with rfl | rfl
    · rw [encodeWAVStep_snd_inrange _ _ (by norm_num)]
      exact ⟨rfl, rfl⟩
    · rw [encodeWAVStep_snd_inrange _ _ (by norm_num)]
      exact ⟨rfl, rfl⟩

/-- C1 (amended): for every buffer whose samples are all exactly 1.0,
`encodeWAV` returns diagnostics with `sanitizedSamples = 0` and
`clippedSamples = 0`: the encoder counts a sample as clipped only when it
lies strictly outside `[-1, 1]`; the `|sample| ≥ 0.99` threshold quoted by
the claim belongs to `computeAudioMetrics`, not to the encoder. -/
theorem c1_constant_one_diagnostics (b : AudioBuffer)
    (h : ∀ ch ∈ b.channels, ∀ s ∈ ch, s = JSNum.num 1) :
    (encodeWAV b).2.sanitizedSamples = 0 ∧
    (encodeWAV b).2.clippedSamples = 0 :=
  encodeWAV_foldl_ones (interleavedSamples b) (interleaved_all_one b h)
    ([], ⟨0, 0, 0⟩)

/-- C1, witness for the amended theorem at the one-sample all-ones buffer. -/
theorem c1_constant_one_diagnostics_witness :
    (∀ ch ∈ constantOneBuffer.channels, ∀ s ∈ ch, s = JSNum.num 1) ∧
    ((encodeWAV constantOneBuffer).2.sanitizedSamples = 0 ∧
     (encodeWAV constantOneBuffer).2.clippedSamples = 0) :=
  ⟨by intro ch hch s hs; simp only [constantOneBuffer] at hch; simpa using
      (by rw [List.mem_singleton] at hch; subst hch; simpa using hs :
        s = JSNum.num 1),
   c1_constant_one_diagnostics constantOneBuffer
     (by intro ch hch s hs
         simp only [constantOneBuffer, List.mem_singleton] at hch
         subst hch
         simpa using hs)⟩

/-- C5, counterexample: on feature-extraction failure the returned
safe-default configuration does *not* enable all six core stages — the
`dynamicEQ` and `deClickDeChirp` stages come back with `enabled = false`
(at strength 50). -/
theorem c5_failure_defaults_counterexample :
    (autoTuneDSP Option.none 1).dspOptions.dynamicEQ =
      some ⟨false, 50⟩ ∧
    (autoTuneDSP Option.none 1).dspOptions.deClickDeChirp =
      some ⟨false, 50⟩ ∧
    (autoTuneDSP Option.none 1).dspOptions.dynamicEQ.map
      DSPStageOptions.enabled ≠ some true :=
  ⟨rfl, rfl, by
    rw [show (autoTuneDSP Option.none 1).dspOptions.dynamicEQ =
      some ⟨false, 50⟩ from rfl]
    simp⟩

/-- C5 (amended): whenever feature extraction fails, `autoTuneDSP` does not
propagate the error and returns the fixed safe-default configuration:
noiseSuppression, transientSuppression, voiceIsolation and spectralRepair
enabled at strength 50, dynamicEQ and deClickDeChirp *disabled* at strength
50, all three tone band adjustments 0, and confidence 0 (the raw intensity
argument is echoed back as `appliedIntensity`). -/
theorem c5_failure_safe_defaults (intensity : ℚ) :
    autoTuneDSP Option.none intensity =
      { dspOptions :=
          { noiseSuppression := some ⟨true, 50⟩
            transientSuppression := some ⟨true, 50⟩
            voiceIsolation := some ⟨true, 50⟩
            spectralRepair := some ⟨true, 50⟩
            dynamicEQ := some ⟨false, 50⟩
            deClickDeChirp := some ⟨false, 50⟩
            lowBandAdjustment := some 0
            midBandAdjustment := some 0
            highBandAdjustment := some 0
            diagnosticsMode := none }
        features := ⟨0, 0, 0, 0, 0, 0, 0, 0, 0, 0, 0, 0⟩
        suggestions :=
          { noiseSuppression := true, noiseSuppressionStrength := 50
            transientSuppression := true, transientSuppressionStrength := 50
            voiceIsolation := true, voiceIsolationStrength := 50
            spectralRepair := true, spectralRepairStrength := 50
            dynamicEQ := false, dynamicEQStrength := 50
            deClickDeChirp := false, deClickDeChirpStrength := 50
            lowBand := 0, midBand := 0, highBand := 0, confidence := 0 }
        appliedIntensity := intensity } := rfl

/-- C9, counterexample: `autoTuneDSP` at intensity 0 does not disable every
stage for *every* input file — when feature extraction of the file fails,
the `catch` branch returns the safe defaults, whose `noiseSuppression` (and
three other stages) are enabled, ignoring the intensity gate. -/
theorem c9_intensity_zero_counterexample :
    (autoTuneDSP Option.none 0).dspOptions.noiseSuppression.map
      DSPStageOptions.enabled = some true ∧
    (autoTuneDSP Option.none 0).dspOptions.noiseSuppression.map
      DSPStageOptions.enabled ≠ some false :=
  ⟨rfl, by
    rw [show (autoTuneDSP Option.none 0).dspOptions.noiseSuppression =
      some ⟨true, 50⟩ from rfl]
    simp⟩

/-- C9 (amended): for every input file whose feature extraction succeeds,
`autoTuneDSP` at intensity 0 returns dspOptions in which every one of the
six stages has `enabled = false` — the gate `clampedIntensity > 0.1` fails —
regardless of the feature-driven suggestions; when extraction fails, the
safe-default configuration (with four stages enabled) is returned instead,
whatever the intensity. -/
theorem c9_intensity_zero_disables_all (features : AudioFeatures) :
    (autoTuneDSP (some features) 0).dspOptions.noiseSuppression.map
      DSPStageOptions.enabled = some false ∧
    (autoTuneDSP (some features) 0).dspOptions.transientSuppression.map
      DSPStageOptions.enabled = some false ∧
    (autoTuneDSP (some features) 0).dspOptions.voiceIsolation.map
      DSPStageOptions.enabled = some false ∧
    (autoTuneDSP (some features) 0).dspOptions.spectralRepair.map
      DSPStageOptions.enabled = some false ∧
    (autoTuneDSP (some features) 0).dspOptions.dynamicEQ.map
      DSPStageOptions.enabled = some false ∧
    (autoTuneDSP (some features) 0).dspOptions.deClickDeChirp.map
      DSPStageOptions.enabled = some false := by
  have hclamp : max (0 : ℚ) (min 1 0) = 0 := by norm_num
  have hgate : decide ((max (0 : ℚ) (min 1 0)) > 1 / 10) = false := by
    rw [decide_eq_false_iff_not]
    norm_num
  refine ⟨?_, ?_, ?_, ?_, ?_, ?_⟩ <;>
    simp [autoTuneDSP, hgate]

/-- Folding the metrics loop over channels that are all empty leaves the
accumulator untouched. -/
theorem metrics_foldl_empty_channels (chs : List (List JSNum)) :
    (∀ ch ∈ chs, ch = []) → ∀ acc : MetricsAcc,
      chs.foldl (fun acc ch => ch.foldl metricsStep acc) acc = acc := by
  induction chs with
  | nil => intro _ _; rfl
  | cons c cs ih =>
    intro h acc
    rw [List.foldl_cons, h c (List.mem_cons_self c cs)]
    exact ih (fun ch hch => h ch (List.mem_cons_of_mem c hch)) acc

/-- C10: on a buffer with zero samples in total, `computeAudioMetrics`
returns `NaN` for `rmsLevel`, `dcOffset` and `clippingPercentage` (the
final divisions by `totalSamples` are unguarded, and in JavaScript
`0 / 0 = NaN`), zero `nanCount` / `infinityCount` / `clippingCount`, zero
`peakLevel`; and `detectAbnormalities` on these metrics reports
`hasAbnormalities = false`, because every comparison against `NaN` is
false. -/
theorem c10_empty_buffer_metrics (sqrtFn : ℚ → ℚ) (b : AudioBuffer)
    (h : (b.channels.map List.length).sum = 0) :
    (computeAudioMetrics sqrtFn b).rmsLevel = JSNum.nan ∧
    (computeAudioMetrics sqrtFn b).dcOffset = JSNum.nan ∧
    (computeAudioMetrics sqrtFn b).clippingPercentage = JSNum.nan ∧
    (computeAudioMetrics sqrtFn b).nanCount = 0 ∧
    (computeAudioMetrics sqrtFn b).infinityCount = 0 ∧
    (computeAudioMetrics sqrtFn b).clippingCount = 0 ∧
    (computeAudioMetrics sqrtFn b).peakLevel = 0 ∧
    (detectAbnormalities (computeAudioMetrics sqrtFn b)).hasAbnormalities =
      false := by
  have hch : ∀ ch ∈ b.channels, ch = [] := by
    intro ch hch
    have := List.sum_eq_zero_iff.mp h ch.length (List.mem_map_of_mem _ hch)
    exact List.eq_nil_of_length_eq_zero this
  have hm : computeAudioMetrics sqrtFn b =
      { sampleRate := b.sampleRate, channels := b.numberOfChannels,
        duration := b.duration, peakLevel := 0, rmsLevel := JSNum.nan,
        dcOffset := JSNum.nan, nanCount := 0, infinityCount := 0,
        clippingCount := 0, clippingPercentage := JSNum.nan } := by
    unfold computeAudioMetrics
    rw [metrics_foldl_empty_channels b.channels hch]
    simp [JSNum.div, JSNum.sqrt, JSNum.mulConst]
  rw [hm]
  refine ⟨rfl, rfl, rfl, rfl, rfl, rfl, rfl, ?_⟩
  simp [detectAbnormalities, JSNum.gtQ, JSNum.abs]

/-- C10, witness at a buffer with zero channels. -/
theorem c10_empty_buffer_metrics_witness :
    (((⟨44100, 0, 0, []⟩ : AudioBuffer).channels.map List.length).sum = 0) ∧
    ((computeAudioMetrics id ⟨44100, 0, 0, []⟩).rmsLevel = JSNum.nan ∧
     (computeAudioMetrics id ⟨44100, 0, 0, []⟩).dcOffset = JSNum.nan ∧
     (computeAudioMetrics id ⟨44100, 0, 0, []⟩).clippingPercentage =
       JSNum.nan ∧
     (computeAudioMetrics id ⟨44100, 0, 0, []⟩).nanCount = 0 ∧
     (computeAudioMetrics id ⟨44100, 0, 0, []⟩).infinityCount = 0 ∧
     (computeAudioMetrics id ⟨44100, 0, 0, []⟩).clippingCount = 0 ∧
     (computeAudioMetrics id ⟨44100, 0, 0, []⟩).peakLevel = 0 ∧
     (detectAbnormalities (computeAudioMetrics id ⟨44100, 0, 0, []⟩)).hasAbnormalities = false) :=
  ⟨rfl, c10_empty_buffer_metrics id ⟨44100, 0, 0, []⟩ rfl⟩

/-- C6: for every completed Triple-Check run, `sourceStage` is the stage of
the first checkpoint — in the fixed order input, early-pipeline,
final-output — whose `abnormalities.hasAbnormalities` is true, and `none`
when no checkpoint has abnormalities. -/
theorem c6_source_stage_first_abnormal (sqrtFn : ℚ → ℚ)
    (b1 b2 b3 : AudioBuffer) (u1 u2 u3 : String) :
    determineSourceStage (runTripleCheckCheckpoints sqrtFn b1 b2 b3 u1 u2 u3) =
      (if (detectAbnormalities (computeAudioMetrics sqrtFn b1)).hasAbnormalities
       then SourceStage.input
       else if (detectAbnormalities
          (computeAudioMetrics sqrtFn b2)).hasAbnormalities
       then SourceStage.earlyPipeline
       else if (detectAbnormalities
          (computeAudioMetrics sqrtFn b3)).hasAbnormalities
       then SourceStage.finalOutput
       else SourceStage.none) := by
  unfold determineSourceStage runTripleCheckCheckpoints
  cases h1 : (detectAbnormalities
      (computeAudioMetrics sqrtFn b1)).hasAbnormalities <;>
  cases h2 : (detectAbnormalities
      (computeAudioMetrics sqrtFn b2)).hasAbnormalities <;>
  cases h3 : (detectAbnormalities
      (computeAudioMetrics sqrtFn b3)).hasAbnormalities <;>
  simp [List.find?, h1, h2, h3, CheckpointStage.toSourceStage]

/-- C7: evaluation of the failure control flow when the final render throws
(the checkpoint-3 `processAudioWithDSP` call fails).  The run aborts with
the wrapped diagnostics error and no partial report — but the `input` and
`early-pipeline` object URLs created before the failure are never revoked,
and the `AudioContext` opened for decoding is never closed: the source has
no `finally`, no `URL.revokeObjectURL`, and reaches `audioContext.close()`
only on the success path, contradicting the specified release-on-failure
requirement. -/
theorem c7_failure_releases_nothing :
    (runTripleCheckRun (some TCStep.renderFinalOutput)).1 =
      Except.error "Triple Check diagnostics failed: render failed" ∧
    (runTripleCheckRun (some TCStep.renderFinalOutput)).2.urlsCreated =
      ["input", "early-pipeline"] ∧
    (runTripleCheckRun (some TCStep.renderFinalOutput)).2.urlsRevoked = [] ∧
    (runTripleCheckRun (some TCStep.renderFinalOutput)).2.contextsOpened = 1 ∧
    (runTripleCheckRun (some TCStep.renderFinalOutput)).2.contextsClosed = 0 :=
  ⟨rfl, rfl, rfl, rfl, rfl⟩

/-- Membership in a conditional singleton list. -/
theorem mem_ite_singleton {α : Type} (a b : α) (c : Prop) [Decidable c] :
    (a ∈ if c then [b] else []) ↔ c ∧ a = b := by
  split_ifs with h <;> simp [h]

/-- C3: an optional stage's filter chain is built if and only if
`diagnosticsMode` is false and that stage's (destructured) config has
`enabled = true` and `strength > 0` — in particular `strength = 0` is a
no-op even when `enabled = true` — and when `diagnosticsMode` is true only
the pre-normalization and final-normalization chains are built, regardless
of every other field. -/
theorem c3_stage_gating (o : DSPProcessingOptions) :
    (StageTag.noiseSuppression ∈ builtStages o ↔
      effDiagnosticsMode o = false ∧ (effNoiseSuppression o).enabled = true ∧
        (effNoiseSuppression o).strength > 0) ∧
    (StageTag.transientSuppression ∈ builtStages o ↔
      effDiagnosticsMode o = false ∧
        (effTransientSuppression o).enabled = true ∧
        (effTransientSuppression o).strength > 0) ∧
    (StageTag.voiceIsolation ∈ builtStages o ↔
      effDiagnosticsMode o = false ∧ (effVoiceIsolation o).enabled = true ∧
        (effVoiceIsolation o).strength > 0) ∧
    (StageTag.spectralRepair ∈ builtStages o ↔
      effDiagnosticsMode o = false ∧ (effSpectralRepair o).enabled = true ∧
        (effSpectralRepair o).strength > 0) ∧
    (StageTag.dynamicEQ ∈ builtStages o ↔
      effDiagnosticsMode o = false ∧ (effDynamicEQ o).enabled = true ∧
        (effDynamicEQ o).strength > 0) ∧
    (StageTag.deClickDeChirp ∈ builtStages o ↔
      effDiagnosticsMode o = false ∧ (effDeClickDeChirp o).enabled = true ∧
        (effDeClickDeChirp o).strength > 0) ∧
    (effDiagnosticsMode o = true →
      builtStages o =
        [StageTag.preNormalization, StageTag.finalNormalization]) := by
  cases hdg : effDiagnosticsMode o <;>
    simp [builtStages, processAudioWithDSPTrace, hdg, mem_ite_singleton]

/-- Options whose only explicit field is a non-zero low-band adjustment:
the tone-profiling stage executes and the progress sequence regresses from
94 to 90. -/
def toneOnlyOptions : DSPProcessingOptions := { lowBandAdjustment := some 3 }

/-- C4, counterexample: with a non-zero band adjustment the tone-profiling
stage reports progress 94, after which final normalization reports the
hard-coded 90 — the reported percentage sequence
`[5, 10, 22, 34, 46, 58, 94, 90, 95, 100]` is not monotonically
increasing. -/
theorem c4_progress_counterexample :
    progressPercents toneOnlyOptions = [5, 10, 22, 34, 46, 58, 94, 90, 95, 100] ∧
    ¬ List.Chain' (· ≤ ·) (progressPercents toneOnlyOptions) := by
  have hev : (processAudioWithDSPTrace toneOnlyOptions).1 =
      [PEvent.progress 5 "Initializing DSP pipeline...",
       PEvent.progress 10 "Applying input normalization...",
       PEvent.progress 22 "Suppressing background noise...",
       PEvent.progress 34 "Reducing transient sounds...",
       PEvent.progress 46 "Isolating voice frequencies...",
       PEvent.progress 58 "Repairing spectral distortion...",
       PEvent.progress 94 "Applying tone profiling...",
       PEvent.progress 90 "Applying output normalization...",
       PEvent.progress 95 "Rendering audio...", PEvent.renderingDone,
       PEvent.progress 100 "Processing complete"] := by
    norm_num [processAudioWithDSPTrace, toneOnlyOptions,
      effNoiseSuppression, effTransientSuppression, effVoiceIsolation,
      effSpectralRepair, effDynamicEQ, effDeClickDeChirp, effLowBand,
      effMidBand, effHighBand, effDiagnosticsMode]
  have htrace : progressPercents toneOnlyOptions =
      [5, 10, 22, 34, 46, 58, 94, 90, 95, 100] := by
    simp only [progressPercents]
    rw [hev]
    simp [List.filterMap_cons]
  refine ⟨htrace, ?_⟩
  rw [htrace]
  norm_num [List.chain'_cons]

/-- C4 (amended): whenever the tone-profiling stage does not execute — in
diagnostics mode, or when all three band adjustments are zero — the
percentage sequence passed to `onProgress` is strictly increasing; and the
value 100 is reported only after offline rendering has completed.  (With a
non-zero band adjustment the tone stage's progress value 94 precedes final
normalization's 90, breaking monotonicity.) -/
theorem c4_progress_monotone (o : DSPProcessingOptions)
    (h : effDiagnosticsMode o = true ∨
      (effLowBand o = 0 ∧ effMidBand o = 0 ∧ effHighBand o = 0)) :
    List.Chain' (· < ·) (progressPercents o) ∧
    hundredOnlyAfterRendering (processAudioWithDSPTrace o).1 = true := by
  cases hdg : effDiagnosticsMode o with
  | true =>
    constructor <;>
      norm_num [progressPercents, processAudioWithDSPTrace, hdg,
        hundredOnlyAfterRendering, List.filterMap_cons, List.chain'_cons]
  | false =>
    rcases h with h | ⟨h1, h2, h3⟩
    · rw [hdg] at h; cases h
    · simp only [progressPercents, processAudioWithDSPTrace, hdg, h1, h2, h3,
        Bool.false_eq_true, if_false, ne_eq, not_true_eq_false, or_self,
        if_neg (by norm_num : ¬((0 : ℚ) ≠ 0 ∨ (0 : ℚ) ≠ 0 ∨ (0 : ℚ) ≠ 0))]
      split_ifs <;>
        constructor <;>
          norm_num [hundredOnlyAfterRendering, List.filterMap_cons,
            List.chain'_cons]

/-- C4, witness for the amended theorem at empty options (no band
adjustments, diagnostics mode off). -/
theorem c4_progress_monotone_witness :
    (effLowBand {} = 0 ∧ effMidBand {} = 0 ∧ effHighBand {} = 0) ∧
    (List.Chain' (· < ·) (progressPercents {}) ∧
     hundredOnlyAfterRendering (processAudioWithDSPTrace {}).1 = true) :=
  ⟨⟨rfl, rfl, rfl⟩, c4_progress_monotone {} (Or.inr ⟨rfl, rfl, rfl⟩)⟩

/-- The first analysis loop leaves its accumulator unchanged on an all-zero
signal (`previousSample = 0` never registers a crossing, peak stays at its
non-negative value, the sum of squares gains nothing). -/
theorem analyze_foldl_zeros (l : List ℚ) :
    (∀ x ∈ l, x = 0) → ∀ (s p : ℚ) (z : ℕ), 0 ≤ p →
      l.foldl analyzeLoopStep ⟨s, p, z, 0⟩ = ⟨s, p, z, 0⟩ := by
  induction l with
  | nil => intro _ _ _ _ _; rfl
  | cons x xs ih =>
    intro h s p z hp
    have hx := h x (List.mem_cons_self x xs)
    subst hx
    have hstep : analyzeLoopStep ⟨s, p, z, 0⟩ 0 = ⟨s, p, z, 0⟩ := by
      simp [analyzeLoopStep, max_eq_left hp]
    rw [List.foldl_cons, hstep]
    exact ih (fun y hy => h y (List.mem_cons_of_mem _ hy)) s p z hp

/-- A sum-of-squares fold over an all-zero list returns its seed. -/
theorem foldl_sq_zeros (l : List ℚ) :
    (∀ x ∈ l, x = 0) → ∀ s : ℚ, l.foldl (fun s x => s + x * x) s = s := by
  induction l with
  | nil => intro _ _; rfl
  | cons x xs ih =>
    intro h s
    have hx := h x (List.mem_cons_self x xs)
    subst hx
    rw [List.foldl_cons]
    simpa using ih (fun y hy => h y (List.mem_cons_of_mem _ hy)) s

/-- The `getD` with default `0` over an all-zero list is `0`. -/
theorem getD_all_zero (l : List ℚ) (h : ∀ x ∈ l, x = 0) (n : ℕ) :
    l.getD n 0 = 0 := by
  rcases Nat.lt_or_ge n l.length with hn | hn
  · rw [List.getD_eq_getElem l _ hn]
    exact h _ (List.getElem_mem hn)
  · exact List.getD_eq_default l _ hn

/-- Every element of a contiguous slice of an all-zero list is `0`. -/
theorem slice_all_zero (l : List ℚ) (h : ∀ x ∈ l, x = 0) (a b : ℕ) :
    ∀ x ∈ (l.drop a).take b, x = 0 :=
  fun x hx => h x (List.mem_of_mem_drop (List.mem_of_mem_take hx))

/-- The `maxAbs` of an all-zero list is `0`. -/
theorem maxAbs_zeros (l : List ℚ) (h : ∀ x ∈ l, x = 0) : maxAbs l = 0 := by
  unfold maxAbs
  induction l with
  | nil => rfl
  | cons x xs ih =>
    have hx := h x (List.mem_cons_self x xs)
    subst hx
    rw [List.foldl_cons]
    simpa using ih (fun y hy => h y (List.mem_cons_of_mem _ hy))

/-- A DFT magnitude spectrum of an all-zero window is all zero. -/
theorem spectrum_all_zero (sqrtFn : ℚ → ℚ) (cosCoef sinCoef : ℕ → ℕ → ℚ)
    (samples : List ℚ) (h : ∀ x ∈ samples, x = 0) (hsqrt : sqrtFn 0 = 0) :
    ∀ m ∈ computeMagnitudeSpectrum sqrtFn cosCoef sinCoef samples, m = 0 := by
  intro m hm
  simp only [computeMagnitudeSpectrum, List.mem_map] at hm
  obtain ⟨k, _, rfl⟩ := hm
  have hreal : ∀ (idx : List ℕ) (s : ℚ),
      idx.foldl (fun s n => s + samples.getD n 0 * cosCoef k n) s = s := by
    intro idx
    induction idx with
    | nil => intro _; rfl
    | cons n ns ih =>
      intro s
      rw [List.foldl_cons, getD_all_zero samples h n]
      simpa using ih _
  have himag : ∀ (idx : List ℕ) (s : ℚ),
      idx.foldl (fun s n => s - samples.getD n 0 * sinCoef k n) s = s := by
    intro idx
    induction idx with
    | nil => intro _; rfl
    | cons n ns ih =>
      intro s
      rw [List.foldl_cons, getD_all_zero samples h n]
      simpa using ih _
  rw [hreal, himag]
  norm_num [hsqrt]

/-- The per-bin totals of an all-zero spectrum are all zero. -/
theorem windowTotals_zeros (w : ℚ) (spectrum : List ℚ)
    (h : ∀ x ∈ spectrum, x = 0) :
    windowTotals w spectrum = ⟨0, 0, 0, 0, 0, 0⟩ := by
  unfold windowTotals
  suffices hgen : ∀ (l : List (ℕ × ℚ)), (∀ p ∈ l, p.2 = 0) →
      ∀ acc : WindowTotals, l.foldl (windowTotalsStep w) acc = acc by
    apply hgen
    intro p hp
    rw [List.enum_eq_zip_range] at hp
    exact h p.2 (List.of_mem_zip hp).2
  intro l
  induction l with
  | nil => intro _ _; rfl
  | cons p ps ih =>
    intro h acc
    have hp := h p (List.mem_cons_self p ps)
    rw [List.foldl_cons]
    have hstep : windowTotalsStep w acc p = acc := by
      simp [windowTotalsStep, hp]
    rw [hstep]
    exact ih (fun q hq => h q (List.mem_cons_of_mem p hq)) acc

/-- The rolloff scan of an all-zero window stops at bin 0 (cumulative
energy 0 already meets the zero threshold), or finds nothing when the
spectrum is empty. -/
theorem rolloffIdx_zeros (spectrum : List ℚ) (h : ∀ x ∈ spectrum, x = 0) :
    rolloffIdx 0 spectrum 0 0 = none ∨ rolloffIdx 0 spectrum 0 0 = some 0 := by
  cases spectrum with
  | nil => left; rfl
  | cons x rest =>
    right
    have hx := h x (List.mem_cons_self x rest)
    simp [rolloffIdx, hx]

/-- Processing an all-zero spectral window leaves the spectral accumulator
unchanged. -/
theorem spectralWindowUpdate_zeros (sr : ℕ) (spectrum : List ℚ)
    (h : ∀ x ∈ spectrum, x = 0) (acc : SpectralAcc) :
    spectralWindowUpdate sr spectrum acc = acc := by
  have h0 : windowTotals ((sr : ℚ) / 2048) spectrum = ⟨0, 0, 0, 0, 0, 0⟩ :=
    windowTotals_zeros _ _ h
  rcases rolloffIdx_zeros spectrum h with hr | hr <;>
    simp [spectralWindowUpdate, h0, hr]

/-- The spectral loop of the extractor returns the zero accumulator on an
all-zero signal. -/
theorem spectralAccOf_zeros (sqrtFn : ℚ → ℚ) (cosCoef sinCoef : ℕ → ℕ → ℚ)
    (sampleRate : ℕ) (channelData : List ℚ)
    (h : ∀ x ∈ channelData, x = 0) (hsqrt : sqrtFn 0 = 0) :
    spectralAccOf sqrtFn cosCoef sinCoef sampleRate channelData =
      ⟨0, 0, 0, 0, 0, 0⟩ := by
  unfold spectralAccOf
  suffices hgen : ∀ (l : List ℕ) (acc : SpectralAcc),
      l.foldl (fun s f =>
        spectralWindowUpdate sampleRate
          (computeMagnitudeSpectrum sqrtFn cosCoef sinCoef
            ((channelData.drop (f * 2048)).take 2048)) s) acc = acc by
    exact hgen _ _
  intro l
  induction l with
  | nil => intro _; rfl
  | cons f fs ih =>
    intro acc
    rw [List.foldl_cons, spectralWindowUpdate_zeros _ _
      (spectrum_all_zero sqrtFn cosCoef sinCoef _
        (slice_all_zero channelData h _ _) hsqrt) acc]
    exact ih acc

/-- The noise floor of an all-zero signal is `0`. -/
theorem noiseFloorOf_zeros (sqrtFn : ℚ → ℚ) (sampleRate : ℕ)
    (channelData : List ℚ) (h : ∀ x ∈ channelData, x = 0)
    (hsqrt : sqrtFn 0 = 0) :
    noiseFloorOf sqrtFn sampleRate channelData = 0 := by
  unfold noiseFloorOf
  have hrms : ∀ r ∈ (List.range
      (if sampleRate / 10 = 0 then 0
       else channelData.length / (sampleRate / 10))).map (fun w =>
        let start := w * (sampleRate / 10)
        let stop := min (start + (sampleRate / 10)) channelData.length
        let seg := (channelData.drop start).take (stop - start)
        sqrtFn (seg.foldl (fun s x => s + x * x) 0 / ((stop - start : ℕ) : ℚ))),
      r = 0 := by
    intro r hr
    simp only [List.mem_map] at hr
    obtain ⟨w, _, rfl⟩ := hr
    rw [foldl_sq_zeros _ (slice_all_zero channelData h _ _) 0]
    norm_num [hsqrt]
  apply getD_all_zero
  intro x hx
  exact hrms x (List.mem_mergeSort.mp hx)

/-- The transient count of an all-zero signal with zero RMS is `0`. -/
theorem transientCountOf_zeros (sampleRate : ℕ) (channelData : List ℚ)
    (h : ∀ x ∈ channelData, x = 0) :
    transientCountOf (JSNum.num 0) sampleRate channelData = 0 := by
  unfold transientCountOf
  rw [List.countP_eq_zero]
  intro i _
  have hcurr : maxAbs ((channelData.drop i).take (sampleRate / 100)) = 0 :=
    maxAbs_zeros _ (slice_all_zero channelData h _ _)
  simp [JSNum.mulConst, hcurr]

/-- C8 (amended): for every all-zero (silent) buffer holding at least one
full 2048-sample spectral window (and a sample rate of at least 10 Hz, so
the 100 ms window size is non-zero), the Feature Extractor returns
`rmsLevel = 0`, `peakLevel = 0`, `dynamicRange = 0` and every other field
exactly `0` — in particular no NaN.  (The averaging divisions by the
spectral window count are unguarded, so silent buffers *shorter* than 2048
samples yield NaN `spectralCentroid` / `spectralRolloff`; `sqrtFn 0 = 0`
states that `Math.sqrt(0) = 0`.) -/
theorem c8_silent_features (sqrtFn log10Fn : ℚ → ℚ)
    (cosCoef sinCoef : ℕ → ℕ → ℚ) (sampleRate : ℕ) (channelData : List ℚ)
    (hz : ∀ x ∈ channelData, x = 0) (hlen : 2048 ≤ channelData.length)
    (hsr : 10 ≤ sampleRate) (hsqrt : sqrtFn 0 = 0) :
    analyzeAudioSamples sqrtFn log10Fn cosCoef sinCoef sampleRate channelData =
      { rmsLevel := JSNum.num 0, peakLevel := 0, dynamicRange := JSNum.num 0,
        noiseFloor := 0, spectralCentroid := JSNum.num 0,
        spectralRolloff := JSNum.num 0, zeroCrossingRate := JSNum.num 0,
        lowEnergyRatio := 0, midEnergyRatio := 0, highEnergyRatio := 0,
        sibilanceEnergy := 0, transientDensity := JSNum.num 0 } := by
  have hacc : channelData.foldl analyzeLoopStep ⟨0, 0, 0, 0⟩ = ⟨0, 0, 0, 0⟩ :=
    analyze_foldl_zeros channelData hz 0 0 0 le_rfl
  have hlen0 : (channelData.length : ℚ) ≠ 0 := by
    have : channelData.length ≠ 0 := by omega
    exact_mod_cast this
  have hsr0 : (sampleRate : ℚ) ≠ 0 := by
    have : sampleRate ≠ 0 := by omega
    exact_mod_cast this
  have hdur : ((channelData.length : ℚ) / (sampleRate : ℚ)) ≠ 0 :=
    div_ne_zero hlen0 hsr0
  have h2048 : 1 ≤ channelData.length / 2048 :=
    (Nat.one_le_div_iff (by omega)).mpr hlen
  have havg : ((min (channelData.length / 2048) 50 : ℕ) : ℚ) ≠ 0 := by
    have : (min (channelData.length / 2048) 50 : ℕ) ≠ 0 := by omega
    exact_mod_cast this
  have havg2 : ((channelData.length / 2048 : ℕ) : ℚ) ⊓ 50 ≠ 0 := by
    have hq : (1 : ℚ) ≤ ((channelData.length / 2048 : ℕ) : ℚ) := by
      exact_mod_cast h2048
    have hle : (1 : ℚ) ≤ ((channelData.length / 2048 : ℕ) : ℚ) ⊓ 50 :=
      le_min hq (by norm_num)
    intro hc
    rw [hc] at hle
    norm_num at hle
  have hmin01 : min ((0 : ℚ) / 10) 1 = 0 := by norm_num
  simp [analyzeAudioSamples, hacc,
    noiseFloorOf_zeros sqrtFn sampleRate channelData hz hsqrt,
    spectralAccOf_zeros sqrtFn cosCoef sinCoef sampleRate channelData hz hsqrt,
    transientCountOf_zeros sampleRate channelData hz,
    JSNum.div, JSNum.sqrt, hsqrt, hlen0, hdur, havg, havg2, hmin01]

/-- C8, counterexample: the averaging division
`spectralCentroidSum / avgCount` is *not* guarded — an all-zero buffer of 4
samples (shorter than one 2048-sample spectral window) yields
`spectralCentroid = NaN` (`0 / 0`).  The `sqrtFn` instantiation
`fun _ => 0` agrees with `Math.sqrt` at the only argument reached (`0`). -/
theorem c8_short_silent_counterexample :
    (∀ x ∈ List.replicate 4 (0 : ℚ), x = 0) ∧
    (analyzeAudioSamples (fun _ => 0) (fun _ => 0) (fun _ _ => 0)
      (fun _ _ => 0) 44100 (List.replicate 4 0)).spectralCentroid =
      JSNum.nan := by
  have hz : ∀ x ∈ List.replicate 4 (0 : ℚ), x = 0 :=
    fun x hx => List.eq_of_mem_replicate hx
  refine ⟨hz, ?_⟩
  have hc : (spectralAccOf (fun _ => 0) (fun _ _ => 0) (fun _ _ => 0)
      44100 (List.replicate 4 0)).centroidSum = 0 := by
    rw [spectralAccOf_zeros (fun _ => 0) (fun _ _ => 0) (fun _ _ => 0)
      44100 (List.replicate 4 0) hz rfl]
  have hlen4 : (List.replicate 4 (0 : ℚ)).length = 4 := List.length_replicate 4 0
  have havg : min ((List.replicate 4 (0 : ℚ)).length / 2048) 50 = 0 := by
    rw [hlen4]
    norm_num
  simp only [analyzeAudioSamples]
  rw [hc, havg]
  simp [JSNum.div]

/-- C8, witness for the amended theorem at a silent 2048-sample buffer at
44100 Hz. -/
theorem c8_silent_features_witness :
    (∀ x ∈ List.replicate 2048 (0 : ℚ), x = 0) ∧
    2048 ≤ (List.replicate 2048 (0 : ℚ)).length ∧
    10 ≤ 44100 ∧
    analyzeAudioSamples (fun _ => 0) (fun _ => 0) (fun _ _ => 0) (fun _ _ => 0)
      44100 (List.replicate 2048 0) =
      { rmsLevel := JSNum.num 0, peakLevel := 0, dynamicRange := JSNum.num 0,
        noiseFloor := 0, spectralCentroid := JSNum.num 0,
        spectralRolloff := JSNum.num 0, zeroCrossingRate := JSNum.num 0,
        lowEnergyRatio := 0, midEnergyRatio := 0, highEnergyRatio := 0,
        sibilanceEnergy := 0, transientDensity := JSNum.num 0 } :=
  ⟨fun x hx => List.eq_of_mem_replicate hx,
   le_of_eq (List.length_replicate 2048 (0 : ℚ)).symm, by norm_num,
   c8_silent_features (fun _ => 0) (fun _ => 0) (fun _ _ => 0) (fun _ _ => 0)
     44100 (List.replicate 2048 0)
     (fun x hx => List.eq_of_mem_replicate hx)
     (le_of_eq (List.length_replicate 2048 (0 : ℚ)).symm) (by norm_num) rfl⟩
